import Mathlib

/-!
Shallow embedding of the asynchronous HADDOCK3 job subsystem
(haddock3_mcp repository) and proofs about it.

Sources embedded:
- `scripts/lib/haddock.py` — `run_haddock3` (identical logic is inlined in
  `scripts/cyclic_peptide_cyclisation.py`);
- `scripts/cyclic_peptide_cyclisation.py` — the tail of
  `run_cyclic_peptide_cyclisation` that unpacks `run_haddock3`'s result,
  `get_peptide_length_from_pdb`;
- `examples/use_case_2_cyclic_peptide_cyclisation.py` — `estimate_peptide_length`;
- `src/server.py` — the submit tools, `get_job_log` default, batch submission;
- the Job Manager (`jobs/manager.py` is not among the repository sources;
  its operations are modelled from the specification where needed, each such
  definition marked `Modelled from the spec:`).

Python values are mapped as follows: strings become `String` or `List Char`
(the latter where character-level slicing matters, since the embedding stays
kernel-computable there), `None`-able values become `Option`, dictionaries
returned by tools become dedicated structures or inductives, the filesystem
becomes an explicit list of existing paths, and a raised exception that a
caller does not catch becomes `Except.error`.
-/

namespace Haddock3MCP

/-! ## Filesystem model

Paths are opaque strings; `fs` lists the paths that exist.  `Path(p).exists()`
becomes membership in `fs`.  Note that in Python `Path("")` normalises to
`"."`, the current working directory, which exists whenever the process runs;
theorems that need this fact take `pathExists fs "" = true` as a hypothesis. -/

def pathExists (fs : List String) (p : String) : Bool :=
  fs.contains p

/-! ## `run_haddock3` (scripts/lib/haddock.py, lines 28–79)

The subprocess call is abstracted by its observable outcome: the process
exited with a return code (carrying captured stdout/stderr), the
`timeout=timeout` expired (`subprocess.TimeoutExpired`), or some other
exception escaped the `subprocess.run` call.  The working directory is
abstracted by its listing, in `iterdir()` order. -/

structure DirEntry where
  name : String
  isDir : Bool
deriving DecidableEq

inductive ProcOutcome where
  | exited (returncode : Int) (stdout stderr : String)
  | timedOut
  | excRaised (msg : String)
deriving DecidableEq

/-- Predicate for `d.is_dir() and d.name.startswith("run")` from
`haddock.py` line 63. -/
def isRunDir (d : DirEntry) : Bool :=
  d.isDir && "run".toList.isPrefixOf d.name.toList

/-- Embedding of `run_haddock3` from `scripts/lib/haddock.py` (the copy in
`scripts/cyclic_peptide_cyclisation.py` lines 262–304 has the same control
flow).  The Python function is annotated `-> Tuple[bool, Optional[Path]]`,
but when `returncode == 0` and no `run*` subdirectory exists, control falls
out of the `if`/`else` and the `try` block without hitting a `return`, so the
function returns `None`; the embedding therefore returns
`Option (Bool × Option String)`, with `none` standing for Python's `None`. -/
def run_haddock3 (outcome : ProcOutcome) (workDirListing : List DirEntry) :
    Option (Bool × Option String) :=
  match outcome with
  | .exited rc _ _ =>
    if rc = 0 then
      match workDirListing.filter isRunDir with
      | d :: _ => some (true, some d.name)
      | [] => none
    else
      some (false, none)
  | .timedOut => some (false, none)
  | .excRaised _ => some (false, none)

/-- Embedding of the tail of `run_cyclic_peptide_cyclisation`
(`scripts/cyclic_peptide_cyclisation.py` lines 406–412):
`success, output_path = run_haddock3(...)` followed by
`result["success"] = success` and
`if success and output_path: result["output_dir"] = str(output_path)`.
Unpacking `None` as a pair raises `TypeError`, modelled as `Except.error`. -/
def finalize_cyclisation (r : Option (Bool × Option String)) :
    Except String (Bool × Option String) :=
  match r with
  | none => Except.error "TypeError: cannot unpack non-iterable NoneType object"
  | some (success, output_path) =>
    Except.ok (success, if success && output_path.isSome then output_path else none)

/-! ## PDB residue parsing

`line[a:b]` becomes `pySliceL` (Python slices clamp at the ends, as
`drop`/`take` do), `str.strip()` becomes `trimChars`, and `int(s)` on the
stripped field becomes `parsePyInt` (optional sign followed by ASCII digits;
Python's digit-separator underscores and non-ASCII digits do not occur in
PDB residue columns).  A PDB file is its list of lines, each a `List Char`. -/

def pySliceL (l : List Char) (a b : Nat) : List Char :=
  (l.drop a).take (b - a)

def trimChars (l : List Char) : List Char :=
  ((l.dropWhile Char.isWhitespace).reverse.dropWhile Char.isWhitespace).reverse

def digitsVal (l : List Char) : Int :=
  l.foldl (fun n c => 10 * n + (Int.ofNat (c.toNat - '0'.toNat))) 0

def parsePyInt (s : List Char) : Option Int :=
  match s with
  | [] => none
  | '-' :: rest =>
    if rest ≠ [] ∧ rest.all Char.isDigit then some (-(digitsVal rest)) else none
  | '+' :: rest =>
    if rest ≠ [] ∧ rest.all Char.isDigit then some (digitsVal rest) else none
  | _ => if s.all Char.isDigit then some (digitsVal s) else none

/-- Test for `line.startswith(('ATOM', 'HETATM'))` from
`scripts/cyclic_peptide_cyclisation.py` line 237. -/
def pdbRecLine (line : List Char) : Bool :=
  "ATOM".toList.isPrefixOf line || "HETATM".toList.isPrefixOf line

/-- Adding an element to a Python `set`, modelled as an order-preserving
duplicate-free list. -/
def insertNew (acc : List Int) (n : Int) : List Int :=
  if n ∈ acc then acc else acc ++ [n]

/-- Residue numbers collected by `get_peptide_length_from_pdb`
(`scripts/cyclic_peptide_cyclisation.py` lines 234–243): every
`ATOM`/`HETATM` line contributes `int(line[22:26].strip())` to a set,
lines whose residue field fails to parse are skipped. -/
def collectAllRes (lines : List (List Char)) : List Int :=
  lines.foldl (fun acc line =>
    if pdbRecLine line then
      match parsePyInt (trimChars (pySliceL line 22 26)) with
      | some n => insertNew acc n
      | none => acc
    else acc) []

/-- Python `max` over a set, given as a duplicate-free list; `none` models the
exception `max` raises on an empty collection. -/
def pyMax : List Int → Option Int
  | [] => none
  | x :: xs => some (xs.foldl max x)

/-- Embedding of `get_peptide_length_from_pdb` from
`scripts/cyclic_peptide_cyclisation.py` lines 231–250 (the copy in
`scripts/lib/validation.py` lines 69–99 is identical): the maximum collected
residue number, `none` modelling the `ValueError` raised when no residue
parses. -/
def get_peptide_length_from_pdb (lines : List (List Char)) : Option Int :=
  pyMax (collectAllRes lines)

/-- Test for `line.startswith("ATOM") and line[12:16].strip() == "CA"` from
`examples/use_case_2_cyclic_peptide_cyclisation.py` line 214. -/
def isCALine (line : List Char) : Bool :=
  "ATOM".toList.isPrefixOf line && trimChars (pySliceL line 12 16) == ['C', 'A']

/-- Loop of `estimate_peptide_length`
(`examples/use_case_2_cyclic_peptide_cyclisation.py` lines 211–216): collect
the residue numbers of `CA` atoms of `ATOM` lines into a set; a residue field
that fails `int()` raises, escaping the loop (`none`). -/
def collectCARes : List (List Char) → List Int → Option (List Int)
  | [], acc => some acc
  | line :: rest, acc =>
    if isCALine line then
      match parsePyInt (trimChars (pySliceL line 22 26)) with
      | none => none
      | some n => collectCARes rest (insertNew acc n)
    else collectCARes rest acc

/-- Embedding of `estimate_peptide_length` from
`examples/use_case_2_cyclic_peptide_cyclisation.py` lines 200–219: the number
of distinct residue numbers among `CA` atoms of `ATOM` records; any exception
(here: a residue field that fails `int()`) yields the default 14. -/
def estimate_peptide_length (lines : List (List Char)) : Int :=
  match collectCARes lines [] with
  | none => 14
  | some residues => residues.length

/-! ## Job Records and the Job Manager

The module `jobs/manager.py` that `src/server.py` imports (`from
jobs.manager import job_manager`) is not among the repository sources; its
operations are modelled from the specification (§3, §4.1, §4.2, §6) and each
such definition is marked `Modelled from the spec:`.  The `src/server.py`
tool functions that wrap them are embedded from the source. -/

inductive Status where
  | pending
  | running
  | completed
  | failed
  | cancelled
deriving DecidableEq, Fintype

def isTerminal : Status → Bool
  | .completed => true
  | .failed => true
  | .cancelled => true
  | _ => false

structure JobRecord where
  job_id : Nat
  script_path : String
  args : List (String × Option String)
  job_name : String
  status : Status
  finished_at : Option Nat
  result : Option String
  error : Option String
  log : List String
  cancel_requested : Bool
deriving DecidableEq

/-- Outcome of a submit tool call, after the two dictionary shapes
`{"status": "submitted", "job_id": ...}` and `{"status": "error",
"error": ...}` of §6. -/
inductive SubmitResult where
  | submitted (job_id : Nat)
  | error (msg : String)
deriving DecidableEq

/-- Modelled from the spec: `job_manager.submit_job` of the absent
`jobs/manager.py`.  Spec §4.1: "submit(script_path, args, job_name) →
{job_id} | {error}.  Validates that `script_path` is resolvable; fails fast
with a validation error if not, without creating a Job Record.  On success,
returns immediately ... after recording the job as `pending`"; §3: `job_id`
unique, assigned at submission.  Fresh ids are allocated sequentially. -/
def submit_job (fs : List String) (store : List JobRecord)
    (script_path : String) (args : List (String × Option String))
    (job_name : String) : SubmitResult × List JobRecord :=
  if pathExists fs script_path then
    (.submitted store.length,
      store ++ [{ job_id := store.length, script_path := script_path,
                  args := args, job_name := job_name, status := .pending,
                  finished_at := none, result := none, error := none,
                  log := [], cancel_requested := false }])
  else
    (.error ("Script not found: " ++ script_path), store)

/-- Truthiness of a Python `Optional[str]`: `None` and `""` are falsy. -/
def pyTruthy : Option String → Bool
  | none => false
  | some s => !(s == "")

/-- Python's `x or default` for an `Optional[str]`. -/
def orDefault (x : Option String) (dflt : String) : String :=
  match x with
  | none => dflt
  | some s => if s == "" then dflt else s

/-- Embedding of `pathlib.Path(p).stem`: the final path component without its
last suffix (a leading dot alone does not start a suffix). -/
def pathStem (p : String) : String :=
  let name := (p.toList.reverse.takeWhile (fun c => c ≠ '/')).reverse
  match name.reverse.dropWhile (fun c => c ≠ '.') with
  | _ :: restRev => if restRev.isEmpty then String.mk name else String.mk restRev.reverse
  | [] => String.mk name

/-- Path of the docking script computed at `src/server.py` line 131
(`SCRIPTS_DIR / "protein_peptide_docking.py"`); opaque here. -/
def protein_peptide_docking_script : String :=
  "scripts/protein_peptide_docking.py"

/-- Result of a `src/server.py` submit tool together with whether control
reached the `job_manager.submit_job` call, and the resulting job store. -/
structure ServerSubmitOut where
  result : SubmitResult
  calledSubmitJob : Bool
  store : List JobRecord
deriving DecidableEq

/-- Embedding of `submit_protein_peptide_docking` from `src/server.py` lines
104–150: validate that the protein, peptide and (if truthy) restraints paths
exist, returning an error dictionary otherwise; then hand over to
`job_manager.submit_job` and return its result. -/
def submit_protein_peptide_docking (fs : List String) (store : List JobRecord)
    (protein_file peptide_file : String)
    (output_dir restraints_file job_name : Option String) : ServerSubmitOut :=
  if !pathExists fs protein_file then
    ⟨.error ("Protein file not found: " ++ protein_file), false, store⟩
  else if !pathExists fs peptide_file then
    ⟨.error ("Peptide file not found: " ++ peptide_file), false, store⟩
  else if pyTruthy restraints_file && !pathExists fs (restraints_file.getD "") then
    ⟨.error ("Restraints file not found: " ++ restraints_file.getD ""), false, store⟩
  else
    let r := submit_job fs store protein_peptide_docking_script
      [("input_protein", some protein_file), ("input_peptide", some peptide_file),
       ("output_dir", output_dir), ("restraints_file", restraints_file)]
      (orDefault job_name ("protein_peptide_docking_" ++ pathStem peptide_file))
    ⟨r.1, true, r.2⟩

/-- Kernel-computable decimal rendering of a `Nat` (fuel-based). -/
def natToStrCore : Nat → Nat → List Char
  | 0, _ => []
  | fuel + 1, n =>
    if n < 10 then [Char.ofNat (48 + n)]
    else natToStrCore fuel (n / 10) ++ [Char.ofNat (48 + n % 10)]

def natToStr (n : Nat) : String :=
  String.mk (natToStrCore (n + 1) n)

/-- Loop body of `submit_batch_protein_peptide_docking` (`src/server.py`
lines 284–308): a missing peptide file appends an error and continues; an
existing one is submitted through `submit_protein_peptide_docking`, whose
result contributes either a job id or an error entry. -/
def batchLoop (fs : List String) (protein_file : String)
    (restraints_file output_base_dir job_name : Option String) :
    List String → Nat → List Nat → List String → List JobRecord →
      List Nat × List String × List JobRecord
  | [], _, job_ids, errors, store => (job_ids, errors, store)
  | peptide_file :: rest, i, job_ids, errors, store =>
    if !pathExists fs peptide_file then
      batchLoop fs protein_file restraints_file output_base_dir job_name rest
        (i + 1) job_ids (errors ++ ["Peptide file not found: " ++ peptide_file]) store
    else
      let peptide_name := pathStem peptide_file
      let output_dir : Option String :=
        match output_base_dir with
        | some base => some (base ++ "/docking_" ++ peptide_name)
        | none => none
      let out := submit_protein_peptide_docking fs store protein_file peptide_file
        output_dir restraints_file
        (some ((orDefault job_name "batch") ++ "_" ++ natToStr (i + 1) ++ "_" ++ peptide_name))
      match out.result with
      | .submitted jid =>
        batchLoop fs protein_file restraints_file output_base_dir job_name rest
          (i + 1) (job_ids ++ [jid]) errors out.store
      | .error msg =>
        batchLoop fs protein_file restraints_file output_base_dir job_name rest
          (i + 1) job_ids
          (errors ++ ["Failed to submit " ++ peptide_file ++ ": " ++ msg]) out.store

/-- Return dictionary of `submit_batch_protein_peptide_docking`: either the
early `{"status": "error", ...}` when the protein file is missing, or the
report of `src/server.py` lines 310–317. -/
inductive BatchResult where
  | earlyError (msg : String)
  | report (status : String) (job_ids : List Nat)
      (total_submitted total_failed : Nat) (errors : Option (List String))
      (message : String)
deriving DecidableEq

/-- Embedding of `submit_batch_protein_peptide_docking` from `src/server.py`
lines 254–317. -/
def submit_batch_protein_peptide_docking (fs : List String)
    (store : List JobRecord) (protein_file : String)
    (peptide_files : List String)
    (restraints_file output_base_dir job_name : Option String) :
    BatchResult × List JobRecord :=
  if !pathExists fs protein_file then
    (.earlyError ("Protein file not found: " ++ protein_file), store)
  else
    let out := batchLoop fs protein_file restraints_file output_base_dir
      job_name peptide_files 0 [] [] store
    let job_ids := out.1
    let errors := out.2.1
    (.report (if job_ids.isEmpty then "error" else "submitted") job_ids
      job_ids.length errors.length
      (if errors.isEmpty then none else some errors)
      ("Submitted " ++ natToStr job_ids.length ++
        " docking jobs. Use list_jobs() to monitor all jobs."),
     out.2.2)

/-- Modelled from the spec: `job_manager.get_job_log` of the absent
`jobs/manager.py`.  Spec §4.1: "`get_log(job_id, tail) → {lines,
total_line_count}`. `tail = 0` returns the full log; `tail = N > 0` returns
exactly the last `min(N, total_line_count)` lines." -/
def get_job_log (log : List String) (tail : Nat) : List String × Nat :=
  if tail = 0 then (log, log.length)
  else (log.drop (log.length - tail), log.length)

/-- Embedding of the `get_job_log` tool from `src/server.py` lines 60–72: it
forwards to the manager unchanged; the Python signature declares the default
`tail: int = 50`. -/
def server_get_job_log (log : List String) (tail : Nat := 50) :
    List String × Nat :=
  get_job_log log tail

/-- Return dictionary of `cancel_job`, after §6:
`{status: "cancelled"} | {status: "noop", message} | {error: "not found"}`. -/
inductive CancelResult where
  | notFound (msg : String)
  | noop (message : String)
  | requested (msg : String)
deriving DecidableEq

/-- Modelled from the spec: `job_manager.cancel_job` of the absent
`jobs/manager.py`.  Spec §4.1: "Cancelling a running job requests
termination of its process; cancelling an already-terminal job is an
idempotent no-op, not an error"; §5: cancellation is enforced asynchronously
by the Runner, the caller only requests, so a live job is merely flagged. -/
def cancel_job (store : List JobRecord) (jid : Nat) :
    CancelResult × List JobRecord :=
  match store.find? (fun j => j.job_id == jid) with
  | none => (.notFound "Job not found", store)
  | some job =>
    if isTerminal job.status then
      (.noop "Job already in a terminal state", store)
    else
      (.requested "Cancellation requested",
        store.map (fun j =>
          if j.job_id == jid then { j with cancel_requested := true } else j))

/-- Sample completed Job Record, used for concrete instantiations. -/
def doneJob : JobRecord :=
  { job_id := 0, script_path := "s.py", args := [], job_name := "j",
    status := .completed, finished_at := some 5, result := some "run1",
    error := none, log := ["done"], cancel_requested := false }

/-- Events that drive one job's status, §4.2: a concurrency slot becomes
available and the Runner spawns the process; the process exits with code 0;
it exits nonzero; the configured timeout expires; a cancellation request is
finalized by the Runner. -/
inductive RunnerEvent where
  | dispatch
  | exitZero
  | exitNonzero
  | timeoutExpiry
  | cancelFinalize
deriving DecidableEq, Fintype

/-- Modelled from the spec: the Job Runner state machine of §4.2.  States:
`pending` (initial) → `running` → one of `completed`, `failed`, `cancelled`
(terminal, no outgoing transitions); events not listed for a state leave it
unchanged. -/
def stepStatus : Status → RunnerEvent → Status
  | .pending, .dispatch => .running
  | .running, .exitZero => .completed
  | .running, .exitNonzero => .failed
  | .running, .timeoutExpiry => .failed
  | .running, .cancelFinalize => .cancelled
  | s, _ => s

/-- Transition relation named by the spec (§3 invariants): `pending →
running → {completed|failed|cancelled}`. -/
def allowedTransition : Status → Status → Bool
  | .pending, .running => true
  | .running, .completed => true
  | .running, .failed => true
  | .running, .cancelled => true
  | _, _ => false

end Haddock3MCP

namespace Haddock3MCP

/-! ## Theorems about `run_haddock3` -/

theorem filter_eq_cons_of_find?_eq_some {α : Type} {p : α → Bool} {l : List α}
    {a : α} (h : l.find? p = some a) : ∃ t, l.filter p = a :: t := by
  induction l with
  | nil => simp at h
  | cons x xs ih =>
    by_cases hx : p x
    · rw [List.find?_cons_of_pos _ hx] at h
      obtain rfl : x = a := Option.some.inj h
      exact ⟨xs.filter p, by simp [List.filter_cons, hx]⟩
    · rw [List.find?_cons_of_neg _ hx] at h
      obtain ⟨t, ht⟩ := ih h
      exact ⟨t, by simp [List.filter_cons, hx, ht]⟩

/-- C2: when the spawned process exits with code 0 but the working directory
has no subdirectory whose name starts with "run", `run_haddock3` returns
`None` instead of a `(success, output_dir)` pair (its declared return type),
and the caller in `run_cyclic_peptide_cyclisation` that unpacks the result as
a pair fails with a `TypeError` on that path. -/
theorem run_haddock3_exit0_no_rundir_returns_none
    (out err : String) (listing : List DirEntry)
    (h : listing.filter isRunDir = []) :
    run_haddock3 (.exited 0 out err) listing = none ∧
    finalize_cyclisation (run_haddock3 (.exited 0 out err) listing) =
      Except.error "TypeError: cannot unpack non-iterable NoneType object" := by
  have hrun : run_haddock3 (.exited 0 out err) listing = none := by
    simp [run_haddock3, h]
  exact ⟨hrun, by rw [hrun]; rfl⟩

/-- Witness for C2: a successful exit over a working directory holding one
file and one non-`run` directory yields `None` and a unpacking error. -/
theorem run_haddock3_exit0_no_rundir_returns_none_witness :
    run_haddock3 (.exited 0 "" "") [⟨"haddock3.log", false⟩, ⟨"data", true⟩] = none ∧
    finalize_cyclisation
        (run_haddock3 (.exited 0 "" "") [⟨"haddock3.log", false⟩, ⟨"data", true⟩]) =
      Except.error "TypeError: cannot unpack non-iterable NoneType object" :=
  run_haddock3_exit0_no_rundir_returns_none "" ""
    [⟨"haddock3.log", false⟩, ⟨"data", true⟩] (by decide)

/-- C3: when the spawned process exits with code 0 and the working directory
contains at least one subdirectory whose name starts with "run",
`run_haddock3` returns `(True, d)` where `d` is the first such subdirectory
encountered when scanning the working directory. -/
theorem run_haddock3_exit0_returns_first_rundir
    (out err : String) (listing : List DirEntry) (d : DirEntry)
    (h : listing.find? isRunDir = some d) :
    run_haddock3 (.exited 0 out err) listing = some (true, some d.name) := by
  obtain ⟨t, ht⟩ := filter_eq_cons_of_find?_eq_some h
  simp [run_haddock3, ht]

/-- Witness for C3: among entries `analysis` (a file), `run1` and `run2`
(both directories), the first matching directory `run1` is returned. -/
theorem run_haddock3_exit0_returns_first_rundir_witness :
    run_haddock3 (.exited 0 "" "")
        [⟨"analysis", false⟩, ⟨"run1", true⟩, ⟨"run2", true⟩] =
      some (true, some "run1") :=
  run_haddock3_exit0_returns_first_rundir "" ""
    [⟨"analysis", false⟩, ⟨"run1", true⟩, ⟨"run2", true⟩] ⟨"run1", true⟩ (by decide)

/-- C4: when the spawned process exits with a nonzero code, or the configured
timeout expires (`subprocess.TimeoutExpired`), `run_haddock3` returns
`(False, None)`: failure with no output directory. -/
theorem run_haddock3_failure_returns_false_none :
    (∀ (rc : Int) (out err : String) (listing : List DirEntry), rc ≠ 0 →
      run_haddock3 (.exited rc out err) listing = some (false, none)) ∧
    (∀ listing : List DirEntry,
      run_haddock3 .timedOut listing = some (false, none)) := by
  constructor
  · intro rc out err listing hrc
    simp [run_haddock3, hrc]
  · intro listing
    rfl

/-- Witness for C4: exit code 1 over an empty working directory. -/
theorem run_haddock3_failure_returns_false_none_witness :
    run_haddock3 (.exited 1 "" "") [] = some (false, none) :=
  run_haddock3_failure_returns_false_none.1 1 "" "" [] (by decide)

end Haddock3MCP

namespace Haddock3MCP

/-! ## Theorems about the two peptide-length computations (C10) -/

theorem foldl_max_mem (x : Int) (xs : List Int) : xs.foldl max x ∈ x :: xs := by
  induction xs generalizing x with
  | nil => simp [List.foldl]
  | cons y ys ih =>
    have h := ih (max x y)
    rw [List.foldl_cons]
    rcases List.mem_cons.mp h with h1 | h1
    · rcases max_choice x y with hm | hm
      · rw [h1, hm]
        exact List.mem_cons_self _ _
      · rw [h1, hm]
        exact List.mem_cons_of_mem _ (List.mem_cons_self _ _)
    · exact List.mem_cons_of_mem _ (List.mem_cons_of_mem _ h1)

theorem le_foldl_max (x : Int) (xs : List Int) :
    ∀ y ∈ x :: xs, y ≤ xs.foldl max x := by
  induction xs generalizing x with
  | nil =>
    intro y hy
    simp only [List.mem_cons, List.not_mem_nil, or_false] at hy
    simp [List.foldl, hy]
  | cons z zs ih =>
    intro y hy
    rw [List.foldl_cons]
    rcases List.mem_cons.mp hy with h1 | h1
    · subst h1
      exact le_trans (le_max_left y z) (ih (max y z) _ (List.mem_cons_self _ _))
    · rcases List.mem_cons.mp h1 with h2 | h2
      · subst h2
        exact le_trans (le_max_right x y) (ih (max x y) _ (List.mem_cons_self _ _))
      · exact ih (max x z) y (List.mem_cons_of_mem _ h2)

theorem pyMax_eq_of_mem_of_le {l : List Int} {n : Int}
    (hmem : n ∈ l) (hle : ∀ x ∈ l, x ≤ n) : pyMax l = some n := by
  match l with
  | [] => simp at hmem
  | x :: xs =>
    have h1 := foldl_max_mem x xs
    have h2 := le_foldl_max x xs
    have heq : xs.foldl max x = n := le_antisymm (hle _ h1) (h2 n hmem)
    simp [pyMax, heq]

theorem insertNew_nodup {acc : List Int} (hacc : acc.Nodup) (n : Int) :
    (insertNew acc n).Nodup := by
  unfold insertNew
  by_cases hc : n ∈ acc
  · simpa [hc] using hacc
  · simp only [hc, if_false]
    rw [List.nodup_append]
    exact ⟨hacc, List.nodup_singleton n,
      fun a ha hb => hc ((List.mem_singleton.mp hb) ▸ ha)⟩

theorem collectCARes_nodup :
    ∀ (lines : List (List Char)) (acc l : List Int),
      collectCARes lines acc = some l → acc.Nodup → l.Nodup := by
  intro lines
  induction lines with
  | nil =>
    intro acc l h hacc
    simp only [collectCARes] at h
    rw [← Option.some.inj h]
    exact hacc
  | cons line rest ih =>
    intro acc l h hacc
    by_cases hca : isCALine line
    · simp only [collectCARes, hca, if_true] at h
      cases hp : parsePyInt (trimChars (pySliceL line 22 26)) with
      | none => rw [hp] at h; exact absurd h (by simp)
      | some n => rw [hp] at h; exact ih _ _ h (insertNew_nodup hacc n)
    · simp only [collectCARes, hca, if_false] at h
      exact ih _ _ h hacc

/-- Counterexample to C10: a two-residue peptide numbered 1 and 3 (both with
`CA` atoms).  `get_peptide_length_from_pdb` reports the maximum residue
number 3, `estimate_peptide_length` reports the 2 distinct CA residues. -/
theorem peptide_length_functions_disagree :
    get_peptide_length_from_pdb
        ["ATOM      1  CA  ALA A   1".toList, "ATOM      2  CA  ALA A   3".toList] =
      some 3 ∧
    estimate_peptide_length
        ["ATOM      1  CA  ALA A   1".toList, "ATOM      2  CA  ALA A   3".toList] =
      2 ∧
    (3 : Int) ≠ 2 :=
  ⟨by decide, by decide, by decide⟩

/-- C10 amended: the two peptide-length computations agree on PDB files whose
residue numbering is contiguous from 1: if the `CA` residue set collected by
`estimate_peptide_length` parses without error and both it and the
`ATOM`/`HETATM` residue set of `get_peptide_length_from_pdb` equal
`{1, …, n}` with `n ≥ 1`, then both functions compute `n`. -/
theorem peptide_length_functions_agree_on_contiguous
    (lines : List (List Char)) (l : List Int) (n : Int)
    (hca : collectCARes lines [] = some l)
    (hn : 1 ≤ n)
    (hcaset : l.toFinset = Finset.Icc 1 n)
    (hallset : (collectAllRes lines).toFinset = Finset.Icc 1 n) :
    get_peptide_length_from_pdb lines = some n ∧
    estimate_peptide_length lines = n := by
  constructor
  · have hmem : n ∈ collectAllRes lines := by
      rw [← List.mem_toFinset, hallset]
      simp [Finset.mem_Icc, hn]
    have hle : ∀ x ∈ collectAllRes lines, x ≤ n := by
      intro x hx
      have hx' := List.mem_toFinset.mpr hx
      rw [hallset] at hx'
      exact (Finset.mem_Icc.mp hx').2
    exact pyMax_eq_of_mem_of_le hmem hle
  · unfold estimate_peptide_length
    rw [hca]
    have hnodup := collectCARes_nodup lines [] l hca List.nodup_nil
    have hcard : l.toFinset.card = l.length := List.toFinset_card_of_nodup hnodup
    rw [hcaset, Int.card_Icc] at hcard
    have hlen : l.length = n.toNat := by omega
    show (l.length : Int) = n
    rw [hlen]
    exact Int.toNat_of_nonneg (by omega)

/-- Witness for the amended C10: a peptide with residues 1 and 2, each with a
`CA` atom. -/
theorem peptide_length_functions_agree_on_contiguous_witness :
    get_peptide_length_from_pdb
        ["ATOM      1  CA  ALA A   1".toList, "ATOM      2  CA  ALA A   2".toList] =
      some 2 ∧
    estimate_peptide_length
        ["ATOM      1  CA  ALA A   1".toList, "ATOM      2  CA  ALA A   2".toList] =
      2 :=
  peptide_length_functions_agree_on_contiguous
    ["ATOM      1  CA  ALA A   1".toList, "ATOM      2  CA  ALA A   2".toList]
    [1, 2] 2 (by decide) (by decide) (by decide) (by decide)

end Haddock3MCP

namespace Haddock3MCP

/-! ## Theorems about the submit tools (C5, C1) -/

/-- C5: when `protein_file`, `peptide_file`, or a provided `restraints_file`
does not exist, `submit_protein_peptide_docking` returns an error dictionary
with a diagnostic message synchronously, `job_manager.submit_job` is not
called, and no Job Record is created.  The hypothesis `hcwd` reflects that
Python's `Path("")` normalises to `"."`, which exists while the process
runs. -/
theorem submit_protein_peptide_docking_validation
    (fs : List String) (store : List JobRecord)
    (protein_file peptide_file : String)
    (output_dir restraints_file job_name : Option String)
    (hcwd : pathExists fs "" = true)
    (h : pathExists fs protein_file = false ∨
      pathExists fs peptide_file = false ∨
      ∃ rf, restraints_file = some rf ∧ pathExists fs rf = false) :
    ∃ msg,
      (submit_protein_peptide_docking fs store protein_file peptide_file
          output_dir restraints_file job_name).result = .error msg ∧
      (submit_protein_peptide_docking fs store protein_file peptide_file
          output_dir restraints_file job_name).calledSubmitJob = false ∧
      (submit_protein_peptide_docking fs store protein_file peptide_file
          output_dir restraints_file job_name).store = store := by
  by_cases h1 : pathExists fs protein_file = true
  · by_cases h2 : pathExists fs peptide_file = true
    · rcases h with h | h | ⟨rf, hrf, hrffalse⟩
      · rw [h1] at h
        exact absurd h (by simp)
      · rw [h2] at h
        exact absurd h (by simp)
      · have hne : rf ≠ "" := by
          intro he
          rw [he, hcwd] at hrffalse
          exact absurd hrffalse (by simp)
        subst hrf
        exact ⟨"Restraints file not found: " ++ rf, by
          simp [submit_protein_peptide_docking, h1, h2, pyTruthy, hne, hrffalse]⟩
    · replace h2 : pathExists fs peptide_file = false := by
        simpa using h2
      exact ⟨"Peptide file not found: " ++ peptide_file, by
        simp [submit_protein_peptide_docking, h1, h2]⟩
  · replace h1 : pathExists fs protein_file = false := by
      simpa using h1
    exact ⟨"Protein file not found: " ++ protein_file, by
      simp [submit_protein_peptide_docking, h1]⟩

/-- Witness for C5: the peptide file is absent from the filesystem. -/
theorem submit_protein_peptide_docking_validation_witness :
    ∃ msg,
      (submit_protein_peptide_docking ["", "prot.pdb"] [] "prot.pdb"
          "pep.pdb" none none (some "j")).result = .error msg ∧
      (submit_protein_peptide_docking ["", "prot.pdb"] [] "prot.pdb"
          "pep.pdb" none none (some "j")).calledSubmitJob = false ∧
      (submit_protein_peptide_docking ["", "prot.pdb"] [] "prot.pdb"
          "pep.pdb" none none (some "j")).store = [] :=
  submit_protein_peptide_docking_validation ["", "prot.pdb"] [] "prot.pdb"
    "pep.pdb" none none (some "j") (by decide) (Or.inr (Or.inl (by decide)))

/-- Counterexample to C1: with both input files present but the computed
docking script path absent from the filesystem,
`submit_protein_peptide_docking` does reach the `job_manager.submit_job`
call — `src/server.py` performs no `script_path` check of its own — so the
parenthetical "no call to job_manager.submit_job is made" fails. -/
theorem submit_missing_script_still_calls_submit_job :
    (submit_protein_peptide_docking ["", "prot.pdb", "pep.pdb"] [] "prot.pdb"
        "pep.pdb" none none (some "job1")).calledSubmitJob = true ∧
    pathExists ["", "prot.pdb", "pep.pdb"] protein_peptide_docking_script =
      false :=
  ⟨by decide, by decide⟩

/-- C1 amended: for every call to `submit_protein_peptide_docking` whose
internally computed `script_path` is not resolvable to an existing file, the
call returns a validation error synchronously and no Job Record is created;
the `script_path` validation is performed inside `job_manager.submit_job`
(modelled from the spec), which is invoked whenever the input files pass
validation and which then fails fast without creating a record. -/
theorem submit_missing_script_errors_without_record
    (fs : List String) (store : List JobRecord)
    (protein_file peptide_file : String)
    (output_dir restraints_file job_name : Option String)
    (hscript : pathExists fs protein_peptide_docking_script = false) :
    ∃ msg,
      (submit_protein_peptide_docking fs store protein_file peptide_file
          output_dir restraints_file job_name).result = .error msg ∧
      (submit_protein_peptide_docking fs store protein_file peptide_file
          output_dir restraints_file job_name).store = store := by
  unfold submit_protein_peptide_docking
  by_cases h1 : pathExists fs protein_file = true
  · by_cases h2 : pathExists fs peptide_file = true
    · by_cases h3 :
        (pyTruthy restraints_file &&
          !pathExists fs (restraints_file.getD "")) = true
      · exact ⟨"Restraints file not found: " ++ restraints_file.getD "",
          by simp [h1, h2, h3]⟩
      · replace h3 := Bool.not_eq_true _ |>.mp h3
        exact ⟨"Script not found: " ++ protein_peptide_docking_script,
          by simp [h1, h2, h3, submit_job, hscript]⟩
    · replace h2 : pathExists fs peptide_file = false := by simpa using h2
      exact ⟨"Peptide file not found: " ++ peptide_file, by simp [h1, h2]⟩
  · replace h1 : pathExists fs protein_file = false := by simpa using h1
    exact ⟨"Protein file not found: " ++ protein_file, by simp [h1]⟩

/-- Witness for the amended C1: both input files exist, the script path does
not; the call errors and the store stays empty. -/
theorem submit_missing_script_errors_without_record_witness :
    ∃ msg,
      (submit_protein_peptide_docking ["", "prot.pdb", "pep.pdb"] []
          "prot.pdb" "pep.pdb" none none (some "job2")).result = .error msg ∧
      (submit_protein_peptide_docking ["", "prot.pdb", "pep.pdb"] []
          "prot.pdb" "pep.pdb" none none (some "job2")).store = [] :=
  submit_missing_script_errors_without_record ["", "prot.pdb", "pep.pdb"] []
    "prot.pdb" "pep.pdb" none none (some "job2") (by decide)

end Haddock3MCP

namespace Haddock3MCP

/-! ## Theorems about batch submission (C9) -/

theorem batchLoop_counts (fs : List String) (protein_file : String)
    (restraints_file output_base_dir job_name : Option String) :
    ∀ (peptides : List String) (i : Nat) (job_ids : List Nat)
      (errors : List String) (store : List JobRecord),
      (batchLoop fs protein_file restraints_file output_base_dir job_name
          peptides i job_ids errors store).1.length +
        (batchLoop fs protein_file restraints_file output_base_dir job_name
          peptides i job_ids errors store).2.1.length =
        job_ids.length + errors.length + peptides.length := by
  intro peptides
  induction peptides with
  | nil =>
    intro i job_ids errors store
    simp [batchLoop]
  | cons p rest ih =>
    intro i job_ids errors store
    by_cases hp : pathExists fs p = true
    · simp only [batchLoop, hp, Bool.not_true, Bool.false_eq_true, if_false]
      split
      · rw [ih]
        simp only [List.length_append, List.length_cons, List.length_nil]
        omega
      · rw [ih]
        simp only [List.length_append, List.length_cons, List.length_nil]
        omega
    · replace hp : pathExists fs p = false := by simpa using hp
      simp only [batchLoop, hp, Bool.not_false, if_true]
      rw [ih]
      simp only [List.length_append, List.length_cons, List.length_nil]
      omega

/-- C9: when the protein file exists, each entry of `peptide_files`
contributes exactly one of a job id or an error entry (a nonexistent peptide
appends an error and processing continues), so `total_submitted +
total_failed` equals the number of peptide files, and the returned status is
"submitted" exactly when at least one job id was collected. -/
theorem submit_batch_accounts_every_entry
    (fs : List String) (store : List JobRecord) (protein_file : String)
    (peptide_files : List String)
    (restraints_file output_base_dir job_name : Option String)
    (hprot : pathExists fs protein_file = true) :
    ∃ ids errs msg store',
      submit_batch_protein_peptide_docking fs store protein_file peptide_files
          restraints_file output_base_dir job_name =
        (.report (if ids.isEmpty then "error" else "submitted") ids ids.length
          errs.length (if errs.isEmpty then none else some errs) msg, store') ∧
      ids.length + errs.length = peptide_files.length ∧
      ((if ids.isEmpty then "error" else "submitted") = "submitted" ↔
        ids ≠ []) := by
  refine ⟨(batchLoop fs protein_file restraints_file output_base_dir job_name
      peptide_files 0 [] [] store).1,
    (batchLoop fs protein_file restraints_file output_base_dir job_name
      peptide_files 0 [] [] store).2.1,
    "Submitted " ++ natToStr (batchLoop fs protein_file restraints_file
      output_base_dir job_name peptide_files 0 [] [] store).1.length ++
      " docking jobs. Use list_jobs() to monitor all jobs.",
    (batchLoop fs protein_file restraints_file output_base_dir job_name
      peptide_files 0 [] [] store).2.2, ?_, ?_, ?_⟩
  · simp [submit_batch_protein_peptide_docking, hprot]
  · simpa using batchLoop_counts fs protein_file restraints_file
      output_base_dir job_name peptide_files 0 [] [] store
  · by_cases hids : (batchLoop fs protein_file restraints_file output_base_dir
        job_name peptide_files 0 [] [] store).1.isEmpty = true
    · rw [if_pos hids, List.isEmpty_iff.mp hids]
      decide
    · rw [if_neg hids]
      simp only [ne_eq, true_iff, iff_true]
      intro hnil
      exact hids (by rw [hnil]; rfl)

/-- Witness for C9: one existing and one missing peptide file. -/
theorem submit_batch_accounts_every_entry_witness :
    ∃ ids errs msg store',
      submit_batch_protein_peptide_docking
          ["", "prot.pdb", "pep1.pdb", "scripts/protein_peptide_docking.py"]
          [] "prot.pdb" ["pep1.pdb", "missing.pdb"] none none (some "batch1") =
        (.report (if ids.isEmpty then "error" else "submitted") ids ids.length
          errs.length (if errs.isEmpty then none else some errs) msg, store') ∧
      ids.length + errs.length = 2 ∧
      ((if ids.isEmpty then "error" else "submitted") = "submitted" ↔
        ids ≠ []) :=
  submit_batch_accounts_every_entry
    ["", "prot.pdb", "pep1.pdb", "scripts/protein_peptide_docking.py"] []
    "prot.pdb" ["pep1.pdb", "missing.pdb"] none none (some "batch1") (by decide)

/-! ## Theorems about the log tail (C6) -/

/-- C6: `get_job_log` returns exactly the last `min(N, total_line_count)`
lines of the log in original order — the reversed `N`-prefix of the reversed
log — together with the total line count; `N = 0` returns the full log, and
the `src/server.py` tool wrapper declares the default `tail = 50`. -/
theorem get_job_log_tail_exact :
    (∀ (log : List String) (N : Nat),
      (get_job_log log N).1 =
        (log.reverse.take (if N = 0 then log.length else N)).reverse ∧
      (get_job_log log N).2 = log.length ∧
      (N ≠ 0 → (get_job_log log N).1.length = min N log.length)) ∧
    (∀ log : List String, server_get_job_log log = get_job_log log 50) := by
  constructor
  · intro log N
    by_cases hN : N = 0
    · subst hN
      refine ⟨?_, by simp [get_job_log], fun h => absurd rfl h⟩
      rw [if_pos rfl, ← List.length_reverse, List.take_length,
        List.reverse_reverse]
      rfl
    · refine ⟨?_, by simp [get_job_log, hN], fun _ => ?_⟩
      · have hr := List.rtake_eq_reverse_take_reverse (l := log) (n := N)
        rw [List.rtake] at hr
        rw [if_neg hN]
        simpa [get_job_log, hN] using hr
      · simp only [get_job_log, hN, if_false, List.length_drop]
        omega
  · intro log
    rfl

/-- Witness for C6: the tail of length 2 of a three-line log. -/
theorem get_job_log_tail_exact_witness :
    (get_job_log ["l1", "l2", "l3"] 2).1 =
        ((["l1", "l2", "l3"] : List String).reverse.take
          (if 2 = 0 then (["l1", "l2", "l3"] : List String).length else 2)).reverse ∧
    (get_job_log ["l1", "l2", "l3"] 2).1.length =
      min 2 (["l1", "l2", "l3"] : List String).length :=
  ⟨(get_job_log_tail_exact.1 ["l1", "l2", "l3"] 2).1,
    (get_job_log_tail_exact.1 ["l1", "l2", "l3"] 2).2.2 (by decide)⟩

/-! ## Theorems about cancellation and the status machine (C7, C8) -/

/-- C7: `cancel_job` on a job already in a terminal state returns a no-op
result — not an error — and leaves the store, hence the job's `finished_at`
and `result` fields, unchanged. -/
theorem cancel_job_terminal_noop (store : List JobRecord) (jid : Nat)
    (job : JobRecord)
    (hfind : store.find? (fun j => j.job_id == jid) = some job)
    (hterm : isTerminal job.status = true) :
    (cancel_job store jid).1 = .noop "Job already in a terminal state" ∧
    (cancel_job store jid).2 = store := by
  simp [cancel_job, hfind, hterm]

/-- Witness for C7: cancelling a completed job with a recorded result. -/
theorem cancel_job_terminal_noop_witness :
    (cancel_job [doneJob] 0).1 = .noop "Job already in a terminal state" ∧
    (cancel_job [doneJob] 0).2 = [doneJob] :=
  cancel_job_terminal_noop [doneJob] 0 doneJob (by decide) (by decide)

theorem stepStatus_refl_or_allowed :
    ∀ (s : Status) (e : RunnerEvent),
      s = stepStatus s e ∨ allowedTransition s (stepStatus s e) = true := by
  decide

theorem chain_scanl_stepStatus (s : Status) (events : List RunnerEvent) :
    List.Chain' (fun a b => a = b ∨ allowedTransition a b = true)
      (List.scanl stepStatus s events) := by
  induction events generalizing s with
  | nil => simp
  | cons e es ih =>
    rw [List.scanl_cons]
    refine List.chain'_cons'.mpr ⟨?_, ih (stepStatus s e)⟩
    intro y hy
    have hy2 : stepStatus s e = y := by
      cases es <;> simpa [List.scanl] using hy
    subst hy2
    exact stepStatus_refl_or_allowed s e

/-- C8: along every sequence of Runner events starting from `pending`, the
status field moves only along `pending → running → {completed | failed |
cancelled}`; no event moves a terminal status, and a caller-side
cancellation request (`cancel_job`) never changes any job's status field —
only the asynchronous Runner finalizes it. -/
theorem status_transitions_monotonic :
    (∀ events : List RunnerEvent,
      List.Chain' (fun a b => a = b ∨ allowedTransition a b = true)
        (List.scanl stepStatus Status.pending events)) ∧
    (∀ (s : Status) (e : RunnerEvent),
      isTerminal s = true → stepStatus s e = s) ∧
    (∀ (store : List JobRecord) (jid : Nat),
      (cancel_job store jid).2.map JobRecord.status =
        store.map JobRecord.status) := by
  refine ⟨fun events => chain_scanl_stepStatus Status.pending events,
    by decide, ?_⟩
  intro store jid
  unfold cancel_job
  cases hf : store.find? (fun j => j.job_id == jid) with
  | none => rfl
  | some job =>
    by_cases ht : isTerminal job.status = true
    · simp [ht]
    · replace ht : isTerminal job.status = false := by simpa using ht
      simp only [ht, Bool.false_eq_true, if_false, List.map_map]
      refine List.map_congr_left ?_
      intro j _
      by_cases hj : j.job_id = jid <;> simp [hj]

/-- Witness for C8: a cancel-finalize event does not move a completed job. -/
theorem status_transitions_monotonic_witness :
    stepStatus Status.completed RunnerEvent.cancelFinalize = Status.completed :=
  status_transitions_monotonic.2.1 Status.completed RunnerEvent.cancelFinalize
    (by decide)

end Haddock3MCP
